import Mathlib

/-!
Verification of the session / notification subsystem of `src/flow.py`
(`Flow` class: bounded queues, callback registry, notification poller,
session-id resolution, RPC response and timeout handling).

Machine model: queues are Lean lists with the head as the oldest element
(`Queue.get` pops the head, `Queue.put` appends at the tail); Python dicts
of callbacks are association lists; a `threading.Lock` is a boolean field
(`true` = held), and an operation that would block on `acquire` is modelled
by a dedicated "blocked" result.  Timeout arguments are rationals (seconds)
wrapped in `Option` (`none` = Python `None`), with Python truthiness made
explicit where the code relies on it.
-/

namespace Flow

/-- Capacity bound `_Session._MAX_QUEUE_SIZE = 128` shared by the
notification queue and the error queue. -/
def MAX_QUEUE_SIZE : Nat := 128

/-- Drop-oldest bounded push used by both `_queue_error` and
`_queue_changes`: `if queue.qsize() > _MAX_QUEUE_SIZE: queue.get()` (the
evicted oldest item is only logged) followed by `queue.put(item)`.  Note the
strict comparison: eviction happens only when the size already exceeds 128. -/
def boundedPush {α : Type} (q : List α) (item : α) : List α :=
  if MAX_QUEUE_SIZE < q.length then q.drop 1 ++ [item] else q ++ [item]

/-- Outcome of invoking a Python callback: normal return, or an exception
carrying a message. -/
inductive CBResult where
  | ok
  | raises (msg : String)
deriving Repr, DecidableEq

/-- A registered notification callback; it receives the notification type
and the notification data (`callback(notification["type"], notification["data"])`)
and either returns or raises. -/
def Callback := String → String → CBResult

/-- A change dict as handled by `_queue_changes` / `consume_notification`.
`type?` is `none` when the dict has no `"type"` key; `data` is the
`"data"` field. -/
structure Change where
  type? : Option String
  data : String
deriving Repr, DecidableEq

/-- Dict insertion (`self.callbacks[name] = callback`): replace the binding
if present, else append. -/
def alInsert {β : Type} (l : List (String × β)) (k : String) (v : β) :
    List (String × β) :=
  match l with
  | [] => [(k, v)]
  | (k1, v1) :: rest =>
      if k1 = k then (k, v) :: rest else (k1, v1) :: alInsert rest k v

/-- Dict deletion (`del self.callbacks[name]`), assuming the key is present. -/
def alErase {β : Type} (l : List (String × β)) (k : String) :
    List (String × β) :=
  match l with
  | [] => []
  | (k1, v1) :: rest =>
      if k1 = k then rest else (k1, v1) :: alErase rest k

/-- Dict lookup (`self.callbacks[name]`, and the `name in self.callbacks`
membership test via `Option.isSome`). -/
def alLookup {β : Type} (l : List (String × β)) (k : String) : Option β :=
  match l with
  | [] => none
  | (k1, v1) :: rest => if k1 = k then some v1 else alLookup rest k

/-- State of one `Flow._Session`: callback registry, the two bounded queues,
the `listen_notifications` event flag, and the `callback_lock`
(`true` = currently held). -/
structure Session where
  callbacks : List (String × Callback)
  notification_queue : List Change
  error_queue : List String
  listen_notifications : Bool
  callback_lock : Bool

/-- A fresh session as built by `_Session.__init__` before
`start_notification_loop`: empty registry, empty queues, lock free.  The
`listen_notifications` flag is set here as after `start_notification_loop`. -/
def emptySession : Session :=
  { callbacks := []
    notification_queue := []
    error_queue := []
    listen_notifications := true
    callback_lock := false }

/-- Embeds `_Session._queue_error`: drop-oldest bounded push into the error
queue (the evicted error is logged, never propagated). -/
def queue_error (s : Session) (error : String) : Session :=
  { s with error_queue := boundedPush s.error_queue error }

/-- Embeds the per-change body of `_Session._queue_changes`: a falsy change
(`none`) or a change without a `"type"` key is skipped; otherwise the change
is enqueued exactly when its type is a key of `self.callbacks`, with
drop-oldest bounding. -/
def queue_change_one (s : Session) (oc : Option Change) : Session :=
  match oc with
  | none => s
  | some c =>
      match c.type? with
      | none => s
      | some ty =>
          if (alLookup s.callbacks ty).isSome then
            { s with notification_queue := boundedPush s.notification_queue c }
          else s

/-- Argument of `_queue_changes`: either a single (possibly falsy) change
dict or a list of them, exactly as `wait_for_notification` may return. -/
inductive Changes where
  | single (c : Option Change)
  | list (cs : List (Option Change))

/-- Normalisation step of `_queue_changes`
(`if not isinstance(changes, list): changes = [changes]`). -/
def Changes.toList : Changes → List (Option Change)
  | .single c => [c]
  | .list cs => cs

/-- Embeds `_Session._queue_changes`: normalise to a list, then enqueue each
change whose type currently has a registered callback. -/
def queue_changes (s : Session) (changes : Changes) : Session :=
  changes.toList.foldl queue_change_one s

/-- Embeds `_Session.register_callback`: acquire the lock (blocking — `none`
— if it is already held), install/replace the binding, release. -/
def register_callback (s : Session) (name : String) (cb : Callback) :
    Option Session :=
  if s.callback_lock then none
  else some { s with callbacks := alInsert s.callbacks name cb }

/-- Result of `_Session.unregister_callback`: blocked on `acquire`, or a
`KeyError` escaping between `acquire` and `release` (leaving the session
with the lock still held), or normal completion. -/
inductive UnregResult where
  | blocked
  | keyError (s : Session)
  | ok (s : Session)

/-- Embeds `_Session.unregister_callback`: `acquire`; `del self.callbacks[name]`;
`release`.  There is no `try/finally`, so when the key is absent the
`KeyError` raised by `del` propagates and `release` is never executed. -/
def unregister_callback (s : Session) (name : String) : UnregResult :=
  if s.callback_lock then .blocked
  else if (alLookup s.callbacks name).isSome then
    .ok { s with callbacks := alErase s.callbacks name, callback_lock := false }
  else .keyError { s with callback_lock := true }

/-- Result of `_Session.consume_notification`: either the caller popped a
notification and then blocked forever acquiring the lock (the queue is
already shortened), or the call completed returning
`notification_consumed` together with the resulting session state and a
record of the callback invocation, if any, as
`(type, data, outcome)`. -/
inductive ConsumeResult where
  | blocked (s : Session)
  | done (consumed : Bool) (s : Session)
      (invoked : Option (String × String × CBResult))

/-- Return value of `consume_notification` (`none` when it blocked). -/
def ConsumeResult.consumed? : ConsumeResult → Option Bool
  | .blocked _ => none
  | .done b _ _ => some b

/-- Session state after `consume_notification`. -/
def ConsumeResult.after : ConsumeResult → Session
  | .blocked s => s
  | .done _ s _ => s

/-- The callback invocation performed by `consume_notification`, if any. -/
def ConsumeResult.invoked? : ConsumeResult → Option (String × String × CBResult)
  | .blocked _ => none
  | .done _ _ i => i

/-- Embeds `_Session.consume_notification`: pop from the notification queue
(`Queue.Empty` on an empty queue yields `False`); then, under the lock, look
up the callback for the popped notification's type and invoke it.  Every
exception inside the locked block — missing `"type"` key, type no longer
registered, or the callback raising — is caught and logged, the lock is
released by the `finally`, and the call still returns `True`. -/
def consume_notification (s : Session) : ConsumeResult :=
  match s.notification_queue with
  | [] => .done false s none
  | n :: rest =>
      let s1 : Session := { s with notification_queue := rest }
      if s.callback_lock then .blocked s1
      else
        match n.type? with
        | none => .done true s1 none
        | some ty =>
            match alLookup s1.callbacks ty with
            | none => .done true s1 none
            | some cb => .done true s1 (some (ty, n.data, cb ty n.data))

/-- One observed outcome of `self.flow.wait_for_notification(sid=self.sid)`
inside `_notification_loop`: success with changes, or an exception together
with the liveness of the backend process at the moment of the
`self.flowappglue.poll()` check (`backendExited = true` means `poll()`
returned an exit code). -/
inductive PollOutcome where
  | ok (changes : Changes)
  | err (msg : String) (backendExited : Bool)

/-- Result of one iteration of `_notification_loop`. -/
inductive LoopStep where
  | stopped (s : Session)
  | next (s : Session)
  | blockedOnLock (s : Session)

/-- Embeds one iteration of `_Session._notification_loop`: exit if the
`listen_notifications` flag is cleared; on an exception from the wait call,
exit immediately when the backend process has exited, otherwise queue the
error string and loop again at once; on success, enqueue the changes under
the lock and loop again. -/
def notification_loop_step (s : Session) (o : PollOutcome) : LoopStep :=
  if s.listen_notifications = false then .stopped s
  else
    match o with
    | .err msg exited =>
        if exited then .stopped s
        else .next (queue_error s msg)
    | .ok changes =>
        if s.callback_lock then .blockedOnLock s
        else .next (queue_changes s changes)

/-- Python truthiness of a timeout value: `None`, `0` and `0.0` are falsy. -/
def timeoutTruthy : Option ℚ → Bool
  | none => false
  | some t => decide (t ≠ 0)

/-- Python `x or y` on timeout values. -/
def pyOr (x y : Option ℚ) : Option ℚ :=
  if timeoutTruthy x then x else y

/-- Embeds the timeout computation of `Flow._run`:
`req_timeout = timeout or (self.api_timeout if method != "WaitForNotification" else None)`. -/
def reqTimeout (method : String) (timeout api_timeout : Option ℚ) : Option ℚ :=
  pyOr timeout (if method ≠ "WaitForNotification" then api_timeout else none)

/-- The fields of a parsed RPC response dict that `Flow._run` inspects:
the `"error"` key, the `"Error"` key (both optional strings) and the
`"result"` key; `α` is the type of the result payload. -/
structure RpcResponse (α : Type) where
  error? : Option String
  errorCap? : Option String
  result? : Option α
deriving Repr, DecidableEq

/-- Outcome of the response-processing tail of `Flow._run`: a raised
`Flow.FlowError` with the backend message, the unwrapped `"result"` value,
or the whole response returned as-is. -/
inductive RunResult (α : Type) where
  | flowError (msg : String)
  | result (v : α)
  | response (r : RpcResponse α)
deriving Repr, DecidableEq

/-- Embeds lines 462-471 of `Flow._run`: raise on a non-empty `"error"`
field, then on a non-empty `"Error"` field, else return the `"result"`
value if that key is present, else return the whole response dict. -/
def processResponse {α : Type} (r : RpcResponse α) : RunResult α :=
  if 0 < (r.error?.getD "").length then .flowError (r.error?.getD "")
  else if 0 < (r.errorCap?.getD "").length then .flowError (r.errorCap?.getD "")
  else
    match r.result? with
    | some v => .result v
    | none => .response r

/-- Embeds `Flow._get_session_id`: `return sid if sid else self._current_session`;
a session id is a Python int, falsy exactly when it equals 0. -/
def _get_session_id (sid cur : Int) : Int :=
  if sid ≠ 0 then sid else cur

/-- A callback that returns normally on every invocation. -/
def okCB : Callback := fun _ _ => .ok

/-- A callback that raises on every invocation. -/
def raisingCB : Callback := fun _ _ => .raises "boom"

/-- Concrete change dict `{type: "message", data: "a"}`. -/
def cA : Change := { type? := some "message", data := "a" }

/-- Concrete change dict `{type: "message", data: "b"}`. -/
def cB : Change := { type? := some "message", data := "b" }

/-- Concrete change dict `{type: "message", data: "c"}`. -/
def cC : Change := { type? := some "message", data := "c" }

/-- Fresh session after `register_callback("message", okCB)`. -/
def sReg : Session :=
  (register_callback emptySession "message" okCB).getD emptySession

/-- Session `sReg` after the poller queued the three message changes
`cA`, `cB`, `cC` in one `_queue_changes` call. -/
def sThree : Session :=
  queue_changes sReg (.list [some cA, some cB, some cC])

/-- Fresh session after `register_callback("message", raisingCB)`. -/
def sRegRaise : Session :=
  (register_callback emptySession "message" raisingCB).getD emptySession

/-- Session `sRegRaise` after the poller queued the message change `cA`. -/
def sRaiseQ : Session :=
  queue_changes sRegRaise (.single (some cA))

/-- Session reached by registering a "message" callback, queueing `cA`, and
then unregistering the callback again: `cA` sits in the notification queue
with no handler left for it. -/
def sDropped : Session :=
  match unregister_callback (queue_changes sReg (.single (some cA))) "message" with
  | .ok s => s
  | .blocked => emptySession
  | .keyError s => s

theorem boundedPush_length_le {α : Type} (q : List α) (a : α)
    (h : q.length ≤ MAX_QUEUE_SIZE + 1) :
    (boundedPush q a).length ≤ MAX_QUEUE_SIZE + 1 := by
  by_cases hle : q.length ≤ MAX_QUEUE_SIZE
  · simp [boundedPush, Nat.not_lt.mpr hle]
    omega
  · simp [boundedPush, Nat.lt_of_not_le hle]
    omega

theorem foldl_boundedPush_eq {α : Type} (items : List α) :
    ∀ q : List α, q.length ≤ MAX_QUEUE_SIZE + 1 →
      items.foldl boundedPush q
        = (q ++ items).drop (q.length + items.length - (MAX_QUEUE_SIZE + 1)) := by
  induction items with
  | nil =>
      intro q h
      simp [Nat.sub_eq_zero_of_le h]
  | cons a rest ih =>
      intro q h
      rw [List.foldl_cons]
      by_cases hle : q.length ≤ MAX_QUEUE_SIZE
      · have hstep : boundedPush q a = q ++ [a] := by
          simp [boundedPush, Nat.not_lt.mpr hle]
        have hlen : (q ++ [a]).length ≤ MAX_QUEUE_SIZE + 1 := by
          simp; omega
        rw [hstep, ih (q ++ [a]) hlen]
        have hlist : (q ++ [a]) ++ rest = q ++ a :: rest := by simp
        have hidx : (q ++ [a]).length + rest.length
            = q.length + (a :: rest).length := by simp; omega
        rw [hlist, hidx]
      · have hq : q.length = MAX_QUEUE_SIZE + 1 := by omega
        have hstep : boundedPush q a = q.drop 1 ++ [a] := by
          simp [boundedPush, Nat.lt_of_not_le hle]
        have hlen : (q.drop 1 ++ [a]).length ≤ MAX_QUEUE_SIZE + 1 := by
          simp; omega
        rw [hstep, ih (q.drop 1 ++ [a]) hlen]
        have hlist : (q.drop 1 ++ [a]) ++ rest = (q ++ a :: rest).drop 1 := by
          rw [List.drop_append_of_le_length (by omega)]
          simp
        rw [hlist, List.drop_drop]
        have hidx1 : (q.drop 1 ++ [a]).length + rest.length - (MAX_QUEUE_SIZE + 1)
            = rest.length := by simp; omega
        have hidx2 : q.length + (a :: rest).length - (MAX_QUEUE_SIZE + 1)
            = rest.length + 1 := by simp; omega
        rw [hidx1, hidx2, Nat.add_comm 1 rest.length]

theorem foldl_queue_error_eq (errors : List String) :
    ∀ s : Session,
      (errors.foldl queue_error s).error_queue
        = errors.foldl boundedPush s.error_queue := by
  induction errors with
  | nil => intro s; rfl
  | cons e rest ih =>
      intro s
      rw [List.foldl_cons, List.foldl_cons, ih]
      rfl

/-- C10: `_get_session_id` resolves a session identifier by Python
truthiness (`sid if sid else current`): the falsy identifier 0 always
selects the current session, a non-zero identifier selects itself, and the
resolver yields the identifier 0 only when both the argument and the
current session are 0 — so a session whose backend-assigned identifier is 0
can never be addressed by an explicit non-zero argument, only through the
current-session indirection. -/
theorem get_session_id_falsy_selects_current (sid cur : Int) :
    _get_session_id 0 cur = cur
    ∧ (sid ≠ 0 → _get_session_id sid cur = sid)
    ∧ (_get_session_id sid cur = 0 → sid = 0 ∧ cur = 0) := by
  refine ⟨by simp [_get_session_id],
    fun h => by simp [_get_session_id, h],
    fun h => ?_⟩
  by_cases hs : sid = 0
  · subst hs
    simp [_get_session_id] at h
    exact ⟨rfl, h⟩
  · simp [_get_session_id, hs] at h

theorem get_session_id_falsy_selects_current_witness :
    _get_session_id 0 7 = 7 ∧ _get_session_id 5 7 = 5 :=
  ⟨(get_session_id_falsy_selects_current 5 7).1,
   (get_session_id_falsy_selects_current 5 7).2.1 (by decide)⟩

/-- C7 counterexample: a `WaitForNotification` request is NOT always issued
without a client-side timeout — the per-call `timeout` argument of `_run`
(forwarded by `wait_for_notification`) short-circuits the Python `or`, so
an explicit timeout of 5 seconds is applied to the request. -/
theorem waitForNotification_timeout_counterexample :
    reqTimeout "WaitForNotification" (some 5) (some 30) = some 5
    ∧ reqTimeout "WaitForNotification" (some 5) (some 30) ≠ none := by
  constructor
  · simp [reqTimeout, pyOr, timeoutTruthy]
  · simp [reqTimeout, pyOr, timeoutTruthy]

/-- C7 (amended): when the per-call `timeout` argument is not truthy
(`None`, absent, or zero), the configurable default api timeout is applied
to every method except `WaitForNotification`, which is then issued with no
client-side timeout — in particular the poller's wait call, which passes no
per-call timeout, always blocks without one; but an explicitly passed
truthy per-call timeout overrides this for every method, including
`WaitForNotification`. -/
theorem reqTimeout_default_policy (method : String) (t api : Option ℚ)
    (h : timeoutTruthy t = false) :
    (method ≠ "WaitForNotification" → reqTimeout method t api = api)
    ∧ reqTimeout "WaitForNotification" t api = none
    ∧ (∀ u : Option ℚ, timeoutTruthy u = true → reqTimeout method u api = u) := by
  refine ⟨fun hm => ?_, ?_, fun u hu => ?_⟩
  · simp [reqTimeout, pyOr, h, hm]
  · simp [reqTimeout, pyOr, h]
  · simp [reqTimeout, pyOr, hu]

theorem reqTimeout_default_policy_witness :
    reqTimeout "WaitForNotification" none (some 30) = none
    ∧ reqTimeout "Config" none (some 30) = some 30 :=
  ⟨(reqTimeout_default_policy "Config" none (some 30) rfl).2.1,
   (reqTimeout_default_policy "Config" none (some 30) rfl).1 (by decide)⟩

/-- C1 counterexample: pushing 129 (> 128) items into an initially empty
bounded queue leaves all 129 of them in the queue, not 128 — the `qsize()`
check is strict (`> 128`), so no eviction has happened yet after 129
pushes. -/
theorem bounded_queue_capacity_counterexample :
    ((List.range 129).foldl boundedPush ([] : List Nat)).length = 129
    ∧ ((List.range 129).foldl boundedPush ([] : List Nat)).length
        ≠ MAX_QUEUE_SIZE := by
  have h := foldl_boundedPush_eq (List.range 129) [] (by simp)
  rw [List.nil_append, List.length_nil, List.length_range] at h
  norm_num [MAX_QUEUE_SIZE] at h
  constructor
  · rw [h, List.length_range]
  · rw [h, List.length_range]
    decide

/-- C1 (amended): both per-session queues use the same drop-oldest push,
which is total (never fails): it appends without eviction while the queue
holds at most 128 items and evicts exactly the single oldest item when the
queue holds strictly more than 128 (129 or beyond) — i.e. eviction starts
one past the nominal capacity, so pushing N items in sequence onto a fresh
queue leaves the last `min(N, 129)` of them, in FIFO order; the
notification-queue push of `_queue_changes` is this same bounded push. -/
theorem bounded_queue_drop_oldest (errors : List String) (q : List String)
    (e : String) (s : Session) (c : Change) (ty : String) :
    (errors.foldl queue_error emptySession).error_queue
      = errors.drop (errors.length - (MAX_QUEUE_SIZE + 1))
    ∧ (q.length ≤ MAX_QUEUE_SIZE → boundedPush q e = q ++ [e])
    ∧ (MAX_QUEUE_SIZE < q.length → boundedPush q e = q.drop 1 ++ [e])
    ∧ (c.type? = some ty → (alLookup s.callbacks ty).isSome = true →
        (queue_change_one s (some c)).notification_queue
          = boundedPush s.notification_queue c) := by
  refine ⟨?_, fun h => ?_, fun h => ?_, fun h1 h2 => ?_⟩
  · rw [foldl_queue_error_eq]
    have h := foldl_boundedPush_eq errors [] (by simp [MAX_QUEUE_SIZE])
    simpa using h
  · simp [boundedPush, Nat.not_lt.mpr h]
  · simp [boundedPush, h]
  · simp [queue_change_one, h1, h2]

theorem bounded_queue_drop_oldest_witness :
    boundedPush ["x"] "y" = ["x"] ++ ["y"]
    ∧ boundedPush (List.replicate 129 "z") "y"
        = (List.replicate 129 "z").drop 1 ++ ["y"] :=
  ⟨(bounded_queue_drop_oldest [] ["x"] "y" emptySession cA "message").2.1
      (by decide),
   (bounded_queue_drop_oldest [] (List.replicate 129 "z") "y" emptySession cA
      "message").2.2.1 (by simp [MAX_QUEUE_SIZE])⟩

theorem alLookup_alInsert {β : Type} (l : List (String × β)) (k : String)
    (v : β) : alLookup (alInsert l k v) k = some v := by
  induction l with
  | nil => simp [alInsert, alLookup]
  | cons p rest ih =>
      obtain ⟨k1, v1⟩ := p
      by_cases hk : k1 = k
      · simp [alInsert, hk, alLookup]
      · simp [alInsert, hk, alLookup, ih]

/-- C2: an event (a truthy change dict with a `"type"` key) is enqueued by
`_queue_changes` exactly when its type tag has a registered callback at
enqueue time: with a handler present the change is bounded-pushed onto the
notification queue, and without one the queue is left unchanged, so the
event is discarded for good — a later `register_callback` does not touch
the notification queue, while the same event arriving after the
registration is enqueued. -/
theorem enqueue_iff_registered (s : Session) (c : Change) (ty : String)
    (h : c.type? = some ty) :
    (queue_changes s (.single (some c))).notification_queue
      = (if (alLookup s.callbacks ty).isSome then
           boundedPush s.notification_queue c
         else s.notification_queue)
    ∧ (∀ (cb : Callback) (s1 : Session),
        register_callback s ty cb = some s1 →
          s1.notification_queue = s.notification_queue
          ∧ (queue_changes s1 (.single (some c))).notification_queue
              = boundedPush s1.notification_queue c) := by
  constructor
  · by_cases hcb : (alLookup s.callbacks ty).isSome
    · simp [queue_changes, Changes.toList, queue_change_one, h, hcb]
    · simp [queue_changes, Changes.toList, queue_change_one, h, hcb]
  · intro cb s1 hreg
    by_cases hl : s.callback_lock
    · simp [register_callback, hl] at hreg
    · simp [register_callback, hl] at hreg
      subst hreg
      refine ⟨rfl, ?_⟩
      simp [queue_changes, Changes.toList, queue_change_one, h,
        alLookup_alInsert]

theorem enqueue_iff_registered_witness :
    (queue_changes emptySession (.single (some cA))).notification_queue
      = (if (alLookup emptySession.callbacks "message").isSome then
           boundedPush emptySession.notification_queue cA
         else emptySession.notification_queue) :=
  (enqueue_iff_registered emptySession cA "message" rfl).1

/-- C3: FIFO dispatch scenario — with a "message" handler registered and
three message events with data "a", "b", "c" queued in that order, three
successive `consume_notification` calls (the body of
`process_one_notification`) each return `True` and invoke the handler with
"a", "b", "c" respectively, and the fourth call on the now-empty queue
returns `False` and invokes nothing. -/
theorem fifo_dispatch_scenario :
    (consume_notification sThree).consumed? = some true
    ∧ (consume_notification sThree).invoked?
        = some ("message", "a", CBResult.ok)
    ∧ (consume_notification (consume_notification sThree).after).consumed?
        = some true
    ∧ (consume_notification (consume_notification sThree).after).invoked?
        = some ("message", "b", CBResult.ok)
    ∧ (consume_notification (consume_notification
        (consume_notification sThree).after).after).consumed? = some true
    ∧ (consume_notification (consume_notification
        (consume_notification sThree).after).after).invoked?
        = some ("message", "c", CBResult.ok)
    ∧ (consume_notification (consume_notification (consume_notification
        (consume_notification sThree).after).after).after).consumed?
        = some false
    ∧ (consume_notification (consume_notification (consume_notification
        (consume_notification sThree).after).after).after).invoked?
        = none := by
  refine ⟨rfl, rfl, rfl, rfl, rfl, rfl, rfl, rfl⟩

/-- C4: a handler that raises during dispatch is contained at the dispatch
boundary: `consume_notification` still returns `True` (the exception does
not reach the caller of `process_one_notification`), the
`listen_notifications` flag driving the poller and the callback registry
are untouched, the lock is released by the `finally`, and a subsequent
queued event is still dispatched to its registered handler. -/
theorem handler_exception_contained (s : Session) (n : Change)
    (rest : List Change) (ty msg : String) (cb : Callback)
    (hq : s.notification_queue = n :: rest)
    (hl : s.callback_lock = false)
    (ht : n.type? = some ty)
    (hcb : alLookup s.callbacks ty = some cb)
    (hraise : cb ty n.data = .raises msg) :
    (consume_notification s).consumed? = some true
    ∧ (consume_notification s).after.listen_notifications
        = s.listen_notifications
    ∧ (consume_notification s).after.callbacks = s.callbacks
    ∧ (consume_notification s).after.notification_queue = rest
    ∧ (consume_notification s).after.callback_lock = false
    ∧ (∀ (n2 : Change) (rest2 : List Change) (ty2 : String) (cb2 : Callback),
        rest = n2 :: rest2 → n2.type? = some ty2 →
        alLookup s.callbacks ty2 = some cb2 →
        (consume_notification (consume_notification s).after).invoked?
          = some (ty2, n2.data, cb2 ty2 n2.data)) := by
  have hc : consume_notification s
      = .done true { s with notification_queue := rest }
          (some (ty, n.data, cb ty n.data)) := by
    simp [consume_notification, hq, hl, ht, hcb]
  refine ⟨?_, ?_, ?_, ?_, ?_, fun n2 rest2 ty2 cb2 h2 ht2 hcb2 => ?_⟩
  · rw [hc]
    rfl
  · rw [hc]
    rfl
  · rw [hc]
    rfl
  · rw [hc]
    rfl
  · rw [hc]
    exact hl
  · rw [hc]
    simp [ConsumeResult.after, consume_notification, h2, hl, ht2, hcb2,
      ConsumeResult.invoked?]

theorem handler_exception_contained_witness :
    (consume_notification sRaiseQ).consumed? = some true
    ∧ (consume_notification sRaiseQ).after.callback_lock = false :=
  ⟨(handler_exception_contained sRaiseQ cA [] "message" "boom" raisingCB
      rfl rfl rfl rfl rfl).1,
   (handler_exception_contained sRaiseQ cA [] "message" "boom" raisingCB
      rfl rfl rfl rfl rfl).2.2.2.2.1⟩

/-- C5: one iteration of `_notification_loop` with the listen flag set:
when the wait call fails and the backend process has exited, the loop
terminates immediately with the session untouched (no error queued); when
it fails with the backend still alive, the error description is
bounded-pushed onto the error queue and the loop goes straight back to the
next wait call (there is no backoff state of any kind in the step). -/
theorem poller_failure_handling (s : Session) (msg : String)
    (h : s.listen_notifications = true) :
    notification_loop_step s (.err msg true) = .stopped s
    ∧ notification_loop_step s (.err msg false)
        = .next { s with error_queue := boundedPush s.error_queue msg } := by
  constructor
  · simp [notification_loop_step, h]
  · simp [notification_loop_step, h, queue_error]

theorem poller_failure_handling_witness :
    notification_loop_step emptySession (.err "e" true) = .stopped emptySession
    ∧ notification_loop_step emptySession (.err "e" false)
        = .next { emptySession with
            error_queue := boundedPush emptySession.error_queue "e" } :=
  poller_failure_handling emptySession "e" rfl

/-- C6: response handling of `_run`: a non-empty `"error"` field raises a
`FlowError` carrying that message; with `"error"` absent or empty, a
non-empty `"Error"` field raises a `FlowError` carrying that message; with
neither casing carrying a non-empty error, a present `"result"` key is
unwrapped and returned, and otherwise the whole response object is
returned as-is. -/
theorem run_response_handling {α : Type} (r : RpcResponse α) :
    (∀ e, r.error? = some e → 0 < e.length →
      processResponse r = .flowError e)
    ∧ (∀ e, (∀ e0, r.error? = some e0 → e0.length = 0) →
        r.errorCap? = some e → 0 < e.length →
        processResponse r = .flowError e)
    ∧ ((∀ e, r.error? = some e → e.length = 0) →
       (∀ e, r.errorCap? = some e → e.length = 0) →
       ∀ v, r.result? = some v → processResponse r = .result v)
    ∧ ((∀ e, r.error? = some e → e.length = 0) →
       (∀ e, r.errorCap? = some e → e.length = 0) →
       r.result? = none → processResponse r = .response r) := by
  refine ⟨fun e he hlen => ?_, fun e h0 he hlen => ?_,
    fun h0 h1 v hv => ?_, fun h0 h1 hr => ?_⟩
  · simp [processResponse, he, hlen]
  · have hc1 : (r.error?.getD "").length = 0 := by
      rcases herr : r.error? with _ | e0
      · rfl
      · exact h0 e0 herr
    simp [processResponse, hc1, he, hlen]
  · have hc1 : (r.error?.getD "").length = 0 := by
      rcases herr : r.error? with _ | e0
      · rfl
      · exact h0 e0 herr
    have hc2 : (r.errorCap?.getD "").length = 0 := by
      rcases hcap : r.errorCap? with _ | e1
      · rfl
      · exact h1 e1 hcap
    simp [processResponse, hc1, hc2, hv]
  · have hc1 : (r.error?.getD "").length = 0 := by
      rcases herr : r.error? with _ | e0
      · rfl
      · exact h0 e0 herr
    have hc2 : (r.errorCap?.getD "").length = 0 := by
      rcases hcap : r.errorCap? with _ | e1
      · rfl
      · exact h1 e1 hcap
    simp [processResponse, hc1, hc2, hr]

theorem run_response_handling_witness :
    processResponse
        ({ error? := some "bad", errorCap? := none, result? := none } :
          RpcResponse Nat)
      = .flowError "bad" :=
  (run_response_handling
    ({ error? := some "bad", errorCap? := none, result? := none } :
      RpcResponse Nat)).1 "bad" rfl (by decide)

/-- C8: `unregister_callback` on a type with no registered handler acquires
the callback lock and then raises `KeyError` from `del` — there is no
`try/finally`, so `release` never runs and the session is left with the
lock held; and from any session state with the lock held, every
lock-taking operation blocks: `register_callback`, `unregister_callback`,
the dispatch part of `consume_notification` on a non-empty queue (which
still pops the notification before blocking), and the poller's enqueue
step. -/
theorem unregister_missing_key_deadlock (s : Session) (name : String)
    (hl : s.callback_lock = false)
    (hmiss : alLookup s.callbacks name = none) :
    unregister_callback s name = .keyError { s with callback_lock := true }
    ∧ (∀ s1 : Session, s1.callback_lock = true →
        (∀ (n : String) (cb : Callback),
          register_callback s1 n cb = none)
        ∧ (∀ n : String, unregister_callback s1 n = .blocked)
        ∧ (∀ (c : Change) (rest : List Change),
            s1.notification_queue = c :: rest →
            consume_notification s1
              = .blocked { s1 with notification_queue := rest })
        ∧ (∀ ch : Changes, s1.listen_notifications = true →
            notification_loop_step s1 (.ok ch) = .blockedOnLock s1)) := by
  constructor
  · simp [unregister_callback, hl, hmiss]
  · intro s1 h1
    refine ⟨fun n cb => ?_, fun n => ?_, fun c rest hq => ?_,
      fun ch hlisten => ?_⟩
    · simp [register_callback, h1]
    · simp [unregister_callback, h1]
    · simp [consume_notification, hq, h1]
    · simp [notification_loop_step, hlisten, h1]

theorem unregister_missing_key_deadlock_witness :
    unregister_callback emptySession "message"
      = .keyError { emptySession with callback_lock := true } :=
  (unregister_missing_key_deadlock emptySession "message" rfl rfl).1

/-- C9: `consume_notification` (the body of `process_one_notification`)
returns `True` exactly when the notification queue was non-empty — an
event was popped — independent of the dispatch outcome: the popped event
is removed either way, an event whose type has no registered handler at
dispatch time is dropped with no callback invocation while the call still
returns `True`, and the call returns `False` only on an empty queue. -/
theorem process_one_returns_popped (s : Session)
    (hl : s.callback_lock = false) :
    (consume_notification s).consumed?
      = some (!s.notification_queue.isEmpty)
    ∧ (∀ (c : Change) (rest : List Change),
        s.notification_queue = c :: rest →
        (consume_notification s).after.notification_queue = rest)
    ∧ (∀ (c : Change) (rest : List Change) (ty : String),
        s.notification_queue = c :: rest → c.type? = some ty →
        alLookup s.callbacks ty = none →
        (consume_notification s).invoked? = none
        ∧ (consume_notification s).consumed? = some true) := by
  refine ⟨?_, fun c rest hq => ?_, fun c rest ty hq ht hnone => ?_⟩
  · rcases hq : s.notification_queue with _ | ⟨c, rest⟩
    · simp [consume_notification, hq, ConsumeResult.consumed?]
    · rcases ht : c.type? with _ | ty
      · simp [consume_notification, hq, hl, ht, ConsumeResult.consumed?]
      · rcases hcb : alLookup s.callbacks ty with _ | cb
        · simp [consume_notification, hq, hl, ht, hcb,
            ConsumeResult.consumed?]
        · simp [consume_notification, hq, hl, ht, hcb,
            ConsumeResult.consumed?]
  · rcases ht : c.type? with _ | ty
    · simp [consume_notification, hq, hl, ht, ConsumeResult.after]
    · rcases hcb : alLookup s.callbacks ty with _ | cb
      · simp [consume_notification, hq, hl, ht, hcb, ConsumeResult.after]
      · simp [consume_notification, hq, hl, ht, hcb, ConsumeResult.after]
  · constructor
    · simp [consume_notification, hq, hl, ht, hnone, ConsumeResult.invoked?]
    · simp [consume_notification, hq, hl, ht, hnone, ConsumeResult.consumed?]

theorem process_one_returns_popped_witness :
    (consume_notification sDropped).consumed?
      = some (!sDropped.notification_queue.isEmpty)
    ∧ (consume_notification sDropped).invoked? = none :=
  ⟨(process_one_returns_popped sDropped rfl).1,
   ((process_one_returns_popped sDropped rfl).2.2 cA [] "message"
      rfl rfl rfl).1⟩

end Flow
